import Mathlib

/-!
# Verification of the student_api_server task pipeline

Shallow embedding of the repository's data model and operations:

* `src/app/models.py`   — the `Task` row (`TaskRec` below);
* `src/app/schemas.py`  — `TaskRequest`, `EvaluationPayload`, `AcknowledgementResponse`;
* `src/app/main.py`     — the intake endpoint `api_endpoint` (secret check, COMPLETE
  lookup, insert with IntegrityError fallback re-read, Celery dispatch);
* `src/workers/tasks.py` — the pipeline executor `process_task` and its helpers
  (`create_github_repo`, `push_to_github`, `enable_github_pages`,
  `verify_pages_deployment`, `notify_evaluator`, `build_evaluation_payload`,
  tenacity's `wait_exponential` as configured on `post_with_retry`).

External effects (GitHub API calls, git subprocesses, HTTP polling, the evaluator
POST) are parameters of the embedding (`Env`): each run is a pure function of the
task row and the outcomes the external world would supply.  The database is a list
of rows; the UNIQUE constraint on `nonce` is modelled by the insert failing exactly
when a row with the same nonce is present.
-/

namespace StudentApi

/-- Python truthiness of an optional string: `None` and `""` are falsy. -/
def falsy : Option String → Bool
  | none => true
  | some s => s == ""

/-- One row of the `tasks` table (`src/app/models.py`, class `Task`).
`completed_at` is modelled as a flag (set or not); `received_at` is a server
default and never read by the code under verification, so it is omitted. -/
structure TaskRec where
  id : Nat
  nonce : String
  status : String
  email : String
  task_name : String
  round : Int
  completed_at : Bool
  repo_url : Option String
  commit_sha : Option String
  pages_url : Option String
  evaluation_url : Option String
  brief : Option String
  error_message : Option String
deriving DecidableEq, Repr

/-- The intake request body (`src/app/schemas.py`, `TaskRequest`).  `checks` and
`attachments` are opaque lists the endpoint never reads; they are modelled as
optional string lists. -/
structure TaskRequest where
  email : String
  secret : String
  task : String
  round : Int
  nonce : String
  brief : Option String
  checks : Option (List String)
  evaluation_url : Option String
  attachments : Option (List String)
deriving DecidableEq, Repr

/-- What the endpoint returns: an `AcknowledgementResponse` or an `HTTPException`. -/
inductive ApiResponse where
  | ack (status task nonce : String)
  | httpError (code : Nat) (detail : String)
deriving DecidableEq, Repr

/-- The row built by `Task(nonce=..., status="RECEIVED", email=..., task_name=...,
round=...)` in `src/app/main.py`: every column not named in the constructor call
keeps its column default (`None` / unset). -/
def newTaskRow (nextId : Nat) (req : TaskRequest) : TaskRec :=
  { id := nextId
    nonce := req.nonce
    status := "RECEIVED"
    email := req.email
    task_name := req.task
    round := req.round
    completed_at := false
    repo_url := none
    commit_sha := none
    pages_url := none
    evaluation_url := none
    brief := none
    error_message := none }

/-- `POST /api-endpoint` (`src/app/main.py`, `api_endpoint`).

Input: the configured `EXPECTED_SECRET` (absent when the env var is unset), the
current table contents, the id the store would assign, and the request.
Output: the table after the request, the list of pipeline runs dispatched to
Celery (task ids), and the HTTP response.

The `db.commit()` of the insert raises `IntegrityError` exactly when the UNIQUE
constraint on `nonce` is violated, i.e. when a row with the same nonce already
exists. -/
def api_endpoint (expectedSecret : Option String) (store : List TaskRec)
    (nextId : Nat) (req : TaskRequest) : List TaskRec × List Nat × ApiResponse :=
  -- `if request.secret != EXPECTED_SECRET: raise HTTPException(403, ...)`
  if some req.secret ≠ expectedSecret then
    (store, [], .httpError 403 "Invalid secret.")
  else
    -- `db.query(Task).filter(nonce, round, status == "COMPLETE").first()`
    match store.find? (fun t =>
        t.nonce == req.nonce && t.round == req.round && t.status == "COMPLETE") with
    | some existing =>
        (store, [], .ack existing.status existing.task_name existing.nonce)
    | none =>
        -- `db.add(new_task); db.commit()` — IntegrityError iff nonce duplicate
        if store.any (fun t => t.nonce == req.nonce) then
          -- `db.rollback()` then re-read by (nonce, round)
          match store.find? (fun t => t.nonce == req.nonce && t.round == req.round) with
          | some existingTask =>
              (store, [], .ack existingTask.status existingTask.task_name existingTask.nonce)
          | none =>
              (store, [], .httpError 409 "A task with this nonce already exists.")
        else
          -- successful insert, then `celery_app.send_task(..., args=[new_task.id])`
          (store ++ [newTaskRow nextId req], [nextId], .ack "RECEIVED" req.task req.nonce)

/-! ## Python string primitives

`verify_pages_deployment` uses `str.split` and `str.replace`; they are embedded
over character lists (structurally recursive, hence kernel-evaluable).  `fuel`
is an upper bound on the number of scanned characters; callers pass
`length + 1`, which the recursion never exhausts because every step consumes at
least one character of the scanned suffix. -/

/-- Scanner for `str.split(sep)` with a non-empty separator: tokens between
left-to-right non-overlapping occurrences of `sep`. `cur` holds the current
token, reversed. -/
def pySplitAux (sep : List Char) (cur : List Char) : Nat → List Char → List (List Char)
  | 0, s => [(cur.reverse ++ s)]
  | fuel + 1, s =>
    match s with
    | [] => [cur.reverse]
    | c :: rest =>
      if sep.isPrefixOf s then
        cur.reverse :: pySplitAux sep [] fuel (s.drop sep.length)
      else
        pySplitAux sep (c :: cur) fuel rest

/-- Python `s.split(sep)` for a non-empty `sep` (the only way the source calls it). -/
def pySplit (s sep : String) : List String :=
  (pySplitAux sep.data [] (s.data.length + 1) s.data).map String.mk

/-- Scanner for `str.replace(old, new)` with non-empty `old`: replaces
left-to-right non-overlapping occurrences. -/
def pyReplaceAux (old new : List Char) : Nat → List Char → List Char
  | 0, s => s
  | fuel + 1, s =>
    match s with
    | [] => []
    | c :: rest =>
      if old.isPrefixOf s then
        new ++ pyReplaceAux old new fuel (s.drop old.length)
      else
        c :: pyReplaceAux old new fuel rest

/-- Python `s.replace(old, new)` for a non-empty `old`. -/
def pyReplace (s old new : String) : String :=
  String.mk (pyReplaceAux old.data new.data (s.data.length + 1) s.data)

/-- `task.repo_url.split("github.com/")[-1].replace(".git", "")`, the owner/name
extraction shared by `enable_github_pages` and `verify_pages_deployment`. -/
def repoFullName (url : String) : String :=
  pyReplace ((pySplit url "github.com/").getLastD "") ".git" ""

/-! ## Pipeline executor (`src/workers/tasks.py`) -/

/-- Outcomes the external world supplies to one `process_task` run.  An
`Except.error e` models the call raising an exception whose `str()` is `e`. -/
structure Env where
  /-- `os.getenv("GITHUB_TOKEN")` -/
  token : Option String
  /-- writing index.html / README.md / LICENSE into the temp dir -/
  genProject : Except String Unit
  /-- the GitHub API interaction inside `create_github_repo` (when a token is
  present): raises, or returns `repo.clone_url` -/
  createRepo : Except String String
  /-- the git subprocess sequence inside `push_to_github`'s `try`: `some sha` on
  success, `none` if any step raised (the source swallows the exception) -/
  pushGit : Option String
  /-- the GitHub API interaction inside `enable_github_pages` (when token and
  repo_url are present) -/
  enablePages : Except String Unit
  /-- `requests.get(pages_url)` of poll number `n` returned HTTP 200 (a transport
  exception counts as `false`: the source's `except: pass`) -/
  verifyPoll : Nat → Bool
  /-- overall outcome of `post_with_retry(evaluation_url, payload)`: `.ok` once a
  200 arrives, `.error` once the retry deadline is exhausted -/
  notifyPost : Except String Unit

/-- `create_github_repo(task, github_token)`: `None` without a token, otherwise
the API's clone URL (or its exception). -/
def create_github_repo (token : Option String) (api : Except String String) :
    Except String (Option String) :=
  if falsy token then .ok none else api.map some

/-- `push_to_github(task, local_path, repo_url, github_token)`: `None` without a
repo URL or token; otherwise the commit SHA, or `None` if any git step failed
(the `except` clause returns `None` — push never raises). -/
def push_to_github (repoUrl : Option String) (token : Option String)
    (git : Option String) : Option String :=
  if falsy repoUrl || falsy token then none else git

/-- `enable_github_pages(task, github_token)`: returns silently without a token
or repo URL, otherwise performs API calls that may raise. -/
def enable_github_pages (t : TaskRec) (token : Option String)
    (api : Except String Unit) : Except String Unit :=
  if falsy token || falsy t.repo_url then .ok () else api

/-- `timeout = 300` seconds in `verify_pages_deployment`. -/
def VERIFY_TIMEOUT : Nat := 300

/-- `interval = 10` seconds in `verify_pages_deployment`. -/
def VERIFY_INTERVAL : Nat := 10

/-- The `while elapsed < timeout` polling loop, by iteration count: iteration
`i` runs at `elapsed = i * interval`, so there are `timeout / interval`
iterations.  Both exits return `url` (source lines `return pages_url` inside the
loop and `return pages_url  # Return even if not verified` after it). -/
def verifyLoop (poll : Nat → Bool) (url : String) : Nat → Nat → String
  | _, 0 => url
  | k, fuel + 1 => if poll k then url else verifyLoop poll url (k + 1) fuel

/-- Number of `requests.get` calls the polling loop performs. -/
def verifyPollCount (poll : Nat → Bool) : Nat → Nat → Nat
  | _, 0 => 0
  | k, fuel + 1 => if poll k then 1 else 1 + verifyPollCount poll (k + 1) fuel

/-- Exception text of the `ValueError` raised by
`owner, repo = repo_full_name.split("/")` when the split does not yield exactly
two parts. -/
def unpackErrMsg : String := "ValueError: unpacking owner/repo failed"

/-- `verify_pages_deployment(task)`: `None` without a repo URL; otherwise
computes `https://{owner}.github.io/{repo}/` from the repo URL and polls it,
returning the same URL whether or not a poll succeeded.  The tuple unpacking of
`repo_full_name.split("/")` raises unless there are exactly two parts. -/
def verify_pages_deployment (t : TaskRec) (poll : Nat → Bool) :
    Except String (Option String) :=
  match t.repo_url with
  | none => .ok none
  | some u =>
    if u == "" then .ok none
    else
      match pySplit (repoFullName u) "/" with
      | [owner, repo] =>
        let pagesUrl := "https://" ++ owner ++ ".github.io/" ++ repo ++ "/"
        .ok (some (verifyLoop poll pagesUrl 0 (VERIFY_TIMEOUT / VERIFY_INTERVAL)))
      | _ => .error unpackErrMsg

/-- The evaluator payload (`src/app/schemas.py`, `EvaluationPayload`): exactly
the fields `email`, `task`, `round`, `nonce`, `repo_url`, `commit_sha`,
`pages_url`. -/
structure EvalPayload where
  email : String
  task : String
  round : Int
  nonce : String
  repo_url : Option String
  commit_sha : Option String
  pages_url : Option String
deriving DecidableEq, Repr

/-- `build_evaluation_payload(task)`. -/
def build_evaluation_payload (t : TaskRec) : EvalPayload :=
  { email := t.email
    task := t.task_name
    round := t.round
    nonce := t.nonce
    repo_url := t.repo_url
    commit_sha := t.commit_sha
    pages_url := t.pages_url }

/-- Observable behaviour of `notify_evaluator`: either it raised before any
POST (`failFast`, with the exception text), or it called
`post_with_retry(url, payload)` whose overall outcome is `outcome`. -/
inductive NotifyResult where
  | failFast (msg : String)
  | posted (url : String) (payload : EvalPayload) (outcome : Except String Unit)
deriving Repr

/-- `notify_evaluator(task, db, start_time)`.  (`start_time` only feeds the dead
local `remaining = max(0, 600 - elapsed)`, which the source never uses, so it
does not appear here.) -/
def notify_evaluator (t : TaskRec) (post : Except String Unit) : NotifyResult :=
  if falsy t.pages_url || falsy t.repo_url || falsy t.commit_sha then
    .failFast "Missing required fields for evaluation notification."
  else
    -- `evaluation_url = getattr(task, 'evaluation_url', None)` plus the
    -- `error_message` fallback hack
    let evalUrl := if falsy t.evaluation_url && !falsy t.error_message then
        t.error_message else t.evaluation_url
    match evalUrl with
    | none => .failFast "No evaluation_url found for task."
    | some u =>
      if u == "" then .failFast "No evaluation_url found for task."
      else .posted u (build_evaluation_payload t) post

/-- Appends the `except Exception as e` handler of `process_task`:
`task.status = "FAILED"; task.error_message = str(e); db.commit()`. -/
def failRun (t : TaskRec) (msg : String) (tr : List String) : TaskRec × List String :=
  ({ t with status := "FAILED", error_message := some msg }, tr ++ ["FAILED"])

/-- The body of `process_task` once the Task row was found: the sequence of
status commits performed (second component, in order) and the row as the run
leaves it (first component). -/
def processTaskRun (env : Env) (t : TaskRec) : TaskRec × List String :=
  let t1 : TaskRec := { t with status := "GENERATING_PROJECT" }
  match env.genProject with
  | .error e => failRun t1 e ["GENERATING_PROJECT"]
  | .ok _ =>
  let t2 : TaskRec := { t1 with status := "CREATE_REPO" }
  match create_github_repo env.token env.createRepo with
  | .error e => failRun t2 e ["GENERATING_PROJECT", "CREATE_REPO"]
  | .ok repoUrl =>
  -- `if repo_url: task.repo_url = repo_url`
  let t3 : TaskRec := if falsy repoUrl then t2 else { t2 with repo_url := repoUrl }
  let t4 : TaskRec := { t3 with status := "PUSH_COMMIT" }
  let sha := push_to_github repoUrl env.token env.pushGit
  -- `if commit_sha: task.commit_sha = commit_sha`
  let t5 : TaskRec := if falsy sha then t4 else { t4 with commit_sha := sha }
  let t6 : TaskRec := { t5 with status := "ENABLE_PAGES" }
  match enable_github_pages t6 env.token env.enablePages with
  | .error e => failRun t6 e ["GENERATING_PROJECT", "CREATE_REPO", "PUSH_COMMIT", "ENABLE_PAGES"]
  | .ok _ =>
  let t7 : TaskRec := { t6 with status := "VERIFY_PAGES" }
  match verify_pages_deployment t7 env.verifyPoll with
  | .error e => failRun t7 e
      ["GENERATING_PROJECT", "CREATE_REPO", "PUSH_COMMIT", "ENABLE_PAGES", "VERIFY_PAGES"]
  | .ok pagesUrl =>
  -- `if pages_url: task.pages_url = pages_url`
  let t8 : TaskRec := if falsy pagesUrl then t7 else { t7 with pages_url := pagesUrl }
  let t9 : TaskRec := { t8 with status := "NOTIFY_EVALUATOR" }
  match notify_evaluator t9 env.notifyPost with
  | .failFast m => failRun t9 m
      ["GENERATING_PROJECT", "CREATE_REPO", "PUSH_COMMIT", "ENABLE_PAGES", "VERIFY_PAGES",
       "NOTIFY_EVALUATOR"]
  | .posted _ _ (.error e) => failRun t9 ("Failed to notify evaluator: " ++ e)
      ["GENERATING_PROJECT", "CREATE_REPO", "PUSH_COMMIT", "ENABLE_PAGES", "VERIFY_PAGES",
       "NOTIFY_EVALUATOR"]
  | .posted _ _ (.ok _) =>
      ({ t9 with status := "COMPLETE", completed_at := true },
       ["GENERATING_PROJECT", "CREATE_REPO", "PUSH_COMMIT", "ENABLE_PAGES", "VERIFY_PAGES",
        "NOTIFY_EVALUATOR", "COMPLETE"])

/-- `process_task(task_id)`: `db.query(Task).filter(Task.id == task_id).first()`
is the optional row argument; `if not task: return` leaves everything untouched. -/
def process_task (env : Env) (row : Option TaskRec) : Option TaskRec × List String :=
  match row with
  | none => (none, [])
  | some t => ((processTaskRun env t).1, (processTaskRun env t).2)

/-! ## The notifier's retry policy

`post_with_retry` is decorated with
`@retry(stop=stop_after_delay(600), wait=wait_exponential(multiplier=2, min=2, max=16),
retry=retry_if_exception_type(Exception))`.  The embedding follows tenacity's
implementation: `wait_exponential.__call__` computes
`multiplier * exp_base ** attempt_number` and clamps it to `[min, max]`
(`attempt_number` is the number of the attempt that just failed, starting at 1),
and `stop_after_delay(600)` stops once the seconds elapsed since the first
attempt of this `post_with_retry` call reach 600. -/

/-- tenacity `wait_exponential(multiplier, min, max, exp_base=2)` evaluated
after failed attempt number `attemptNumber`. -/
def wait_exponential (multiplier minWait maxWait expBase attemptNumber : Nat) : Nat :=
  max (max 0 minWait) (min (multiplier * expBase ^ attemptNumber) maxWait)

/-- The sleep inserted after failed attempt `n` of `post_with_retry`:
`wait_exponential(multiplier=2, min=2, max=16)`. -/
def postRetryWait (n : Nat) : Nat := wait_exponential 2 2 16 2 n

/-- tenacity `stop_after_delay(maxDelay)`: `elapsed` is measured from the first
attempt of the decorated call (not from pipeline start — the
`remaining = max(0, 600 - elapsed)` computed in `notify_evaluator` from
`start_time` is never used). -/
def stop_after_delay (maxDelay elapsed : Nat) : Bool := maxDelay ≤ elapsed

/-- Seconds elapsed (sleeps only; attempts taken as instantaneous) when POST
attempt `n` starts: attempt 1 starts at 0, attempt `n+1` starts after the
sleep that follows failed attempt `n`. -/
def postRetryStart : Nat → Nat
  | 0 => 0
  | 1 => 0
  | n + 2 => postRetryStart (n + 1) + postRetryWait (n + 1)

/-! ## Concrete fixtures (used by witnesses and counterexamples) -/

/-- Scenario A's request (spec §8), with a brief and a callback URL supplied. -/
def reqA : TaskRequest :=
  { email := "a@example.com", secret := "s3cret", task := "portfolio", round := 1,
    nonce := "n-001", brief := some "Hello", checks := none,
    evaluation_url := some "https://evaluator.example/cb", attachments := none }

/-- A stored row for `reqA`'s nonce still in flight (status RECEIVED). -/
def rowReceived : TaskRec :=
  { id := 7, nonce := "n-001", status := "RECEIVED", email := "a@example.com",
    task_name := "portfolio", round := 1, completed_at := false,
    repo_url := none, commit_sha := none, pages_url := none,
    evaluation_url := none, brief := none, error_message := none }

/-- A stored row for `reqA`'s nonce that has reached COMPLETE. -/
def rowComplete : TaskRec :=
  { id := 7, nonce := "n-001", status := "COMPLETE", email := "a@example.com",
    task_name := "portfolio", round := 1, completed_at := true,
    repo_url := some "https://github.com/a/r.git", commit_sha := some "abc",
    pages_url := some "https://a.github.io/r/", evaluation_url := none,
    brief := none, error_message := none }

/-- A Task at the notify step whose caller-supplied callback URL was never
stored (`evaluation_url = None`) but whose `error_message` happens to hold
text — the state `notify_evaluator`'s fallback hack reads. -/
def rowNotifyNoCallback : TaskRec :=
  { id := 9, nonce := "n-002", status := "NOTIFY_EVALUATOR", email := "a@example.com",
    task_name := "portfolio", round := 1, completed_at := false,
    repo_url := some "https://github.com/a/r.git", commit_sha := some "abc123",
    pages_url := some "https://a.github.io/r/", evaluation_url := none,
    brief := none, error_message := some "https://cb.example/hook" }

/-- A Task entering the verify step with a provisioned repository. -/
def rowVerify : TaskRec :=
  { id := 11, nonce := "n-003", status := "VERIFY_PAGES", email := "a@example.com",
    task_name := "portfolio", round := 1, completed_at := false,
    repo_url := some "https://github.com/alice/site.git", commit_sha := some "abc123",
    pages_url := none, evaluation_url := none, brief := none, error_message := none }

/-- A poll oracle whose third GET (index 2) is the first to return HTTP 200. -/
def pollW : Nat → Bool := fun k => k == 2

/-- `true` iff "COMPLETE" / "FAILED" occur only as the last element: the check
that a run's sequence of status commits treats terminal states as final. -/
def terminalOnlyLastB : List String → Bool
  | [] => true
  | [_] => true
  | s :: rest => (!(s == "COMPLETE" || s == "FAILED")) && terminalOnlyLastB rest

/-- An environment without a GitHub token where every local step succeeds and
no poll ever sees a 200. -/
def env0 : Env :=
  { token := none, genProject := .ok (), createRepo := .ok "", pushGit := none,
    enablePages := .ok (), verifyPoll := fun _ => false, notifyPost := .ok () }

/-- `env0` except that writing the project files raises `OSError("disk full")`. -/
def envGenFail : Env :=
  { env0 with genProject := .error "disk full" }

/-- An environment with a token where repo creation succeeds but every git
subprocess path fails (`push_to_github` swallows the error and yields `None`). -/
def envPushFail : Env :=
  { token := some "ghp_tok", genProject := .ok (),
    createRepo := .ok "https://github.com/a/r.git", pushGit := none,
    enablePages := .ok (), verifyPoll := fun _ => false, notifyPost := .ok () }

/-- The store invariant maintained by the UNIQUE constraint on `nonce`. -/
def nonceUnique (store : List TaskRec) : Prop :=
  store.Pairwise (fun a b => a.nonce ≠ b.nonce)

/-! ## Helper lemmas -/

theorem append_ne_empty_right (a b : String) (hb : b ≠ "") : a ++ b ≠ "" := by
  intro h
  have h2 := congrArg String.data h
  rw [String.data_append] at h2
  rcases List.append_eq_nil.mp h2 with ⟨-, h3⟩
  apply hb
  cases b with
  | mk l => simp only at h3; subst h3; rfl

/-- Both exits of the polling loop return the same URL (source lines
`return pages_url` inside the loop and `return pages_url` after it). -/
theorem verifyLoop_eq (poll : Nat → Bool) (url : String) (k fuel : Nat) :
    verifyLoop poll url k fuel = url := by
  induction fuel generalizing k with
  | zero => rfl
  | succ f ih => simp [verifyLoop, ih]

theorem nonceUnique_eq {store : List TaskRec} (h : nonceUnique store)
    {a b : TaskRec} (ha : a ∈ store) (hb : b ∈ store) (hn : a.nonce = b.nonce) :
    a = b := by
  by_contra hne
  exact (List.Pairwise.forall (fun x y hxy => (Ne.symm hxy)) h ha hb hne) hn

theorem find?_eq_some_of_unique {store : List TaskRec} {p : TaskRec → Bool}
    {t0 : TaskRec} (ht0 : t0 ∈ store) (hp : p t0 = true)
    (huniq : ∀ t ∈ store, p t = true → t = t0) :
    store.find? p = some t0 := by
  induction store with
  | nil => cases ht0
  | cons a l ih =>
    by_cases ha : p a = true
    · have heq : a = t0 := huniq a (List.mem_cons_self a l) ha
      subst heq
      simp [List.find?, ha]
    · have ht0' : t0 ∈ l := by
        rcases List.mem_cons.mp ht0 with h | h
        · exact absurd (h ▸ hp) ha
        · exact h
      have h' : ∀ t ∈ l, p t = true → t = t0 := fun t ht hpt =>
        huniq t (List.mem_cons_of_mem a ht) hpt
      simp [List.find?, ha, ih ht0' h']

/-! ## Claims about the intake endpoint -/

/-- C9: a submission whose secret does not match the configured expected value
is rejected with HTTP 403 "Invalid secret." and leaves the store unchanged: no
Task row is created and no pipeline run is scheduled. -/
theorem intake_bad_secret_rejected (sec : Option String) (store : List TaskRec)
    (nid : Nat) (req : TaskRequest) (hsec : some req.secret ≠ sec) :
    api_endpoint sec store nid req = (store, [], .httpError 403 "Invalid secret.") := by
  simp [api_endpoint, hsec]

/-- Witness for C9 at a concrete input. -/
theorem intake_bad_secret_rejected_witness :
    api_endpoint (some "expected") [] 1
      { email := "a@example.com", secret := "wrong", task := "portfolio", round := 1,
        nonce := "n-001", brief := none, checks := none, evaluation_url := none,
        attachments := none }
      = ([], [], .httpError 403 "Invalid secret.") :=
  intake_bad_secret_rejected (some "expected") [] 1 _ (by decide)

/-- C2: if a Task row for the submission's `(nonce, round)` already has status
COMPLETE, the endpoint returns that row's recorded status, task name and nonce,
inserts no row, and schedules no pipeline run. -/
theorem intake_complete_row_returned (sec : Option String) (store : List TaskRec)
    (nid : Nat) (req : TaskRequest) (t0 : TaskRec)
    (huniq : nonceUnique store) (hsec : sec = some req.secret)
    (ht0 : t0 ∈ store) (hn : t0.nonce = req.nonce) (hr : t0.round = req.round)
    (hc : t0.status = "COMPLETE") :
    api_endpoint sec store nid req = (store, [], .ack t0.status t0.task_name t0.nonce) := by
  have hfind : store.find? (fun t =>
      t.nonce == req.nonce && t.round == req.round && t.status == "COMPLETE") = some t0 := by
    apply find?_eq_some_of_unique ht0
    · simp [hn, hr, hc]
    · intro t ht hpt
      simp only [Bool.and_eq_true, beq_iff_eq] at hpt
      exact nonceUnique_eq huniq ht ht0 (hpt.1.1.trans hn.symm)
  simp [api_endpoint, hsec, hfind]

/-- Witness for C2 at a concrete input (spec §8, Scenario C). -/
theorem intake_complete_row_returned_witness :
    api_endpoint (some "s3cret") [rowComplete] 8 reqA
      = ([rowComplete], [], .ack "COMPLETE" "portfolio" "n-001") :=
  intake_complete_row_returned (some "s3cret") [rowComplete] 8 reqA rowComplete
    (List.pairwise_singleton _ _) rfl (List.mem_singleton.mpr rfl) rfl rfl rfl

/-- C1: once any row with the submission's nonce exists, the endpoint never
creates another row for that nonce and never schedules another pipeline run —
and when the request's secret is valid and the existing row also matches the
request's round (the duplicate-submission case the uniqueness conflict
resolves), the response is that row's current recorded result. -/
theorem intake_idempotent_per_nonce (sec : Option String) (store : List TaskRec)
    (nid : Nat) (req : TaskRequest) (t0 : TaskRec)
    (huniq : nonceUnique store) (ht0 : t0 ∈ store) (hn : t0.nonce = req.nonce) :
    (api_endpoint sec store nid req).1 = store
    ∧ (api_endpoint sec store nid req).2.1 = []
    ∧ (sec = some req.secret → t0.round = req.round →
        (api_endpoint sec store nid req).2.2 = .ack t0.status t0.task_name t0.nonce) := by
  have hany : store.any (fun t => t.nonce == req.nonce) = true :=
    List.any_eq_true.mpr ⟨t0, ht0, by simp [hn]⟩
  by_cases hsec : some req.secret ≠ sec
  · simp [api_endpoint, hsec]
    intro h; exact absurd h.symm hsec
  · push_neg at hsec
    rcases hC : store.find? (fun t =>
        t.nonce == req.nonce && t.round == req.round && t.status == "COMPLETE") with _ | tC
    · rcases hR : store.find? (fun t => t.nonce == req.nonce && t.round == req.round)
        with _ | tR
      · refine ⟨by simp [api_endpoint, hsec, hC, hany, hR], by simp [api_endpoint, hsec, hC, hany, hR], ?_⟩
        intro _ hr
        have := List.find?_eq_none.mp hR t0 ht0
        simp [hn, hr] at this
      · have htR : tR ∈ store := List.mem_of_find?_eq_some hR
        have hpR := List.find?_some hR
        simp only [Bool.and_eq_true, beq_iff_eq] at hpR
        have heq : tR = t0 := nonceUnique_eq huniq htR ht0 (hpR.1.trans hn.symm)
        subst heq
        exact ⟨by simp [api_endpoint, hsec, hC, hany, hR],
               by simp [api_endpoint, hsec, hC, hany, hR],
               fun _ _ => by simp [api_endpoint, hsec, hC, hany, hR]⟩
    · have htC : tC ∈ store := List.mem_of_find?_eq_some hC
      have hpC := List.find?_some hC
      simp only [Bool.and_eq_true, beq_iff_eq] at hpC
      have heq : tC = t0 := nonceUnique_eq huniq htC ht0 (hpC.1.1.trans hn.symm)
      subst heq
      exact ⟨by simp [api_endpoint, hsec, hC],
             by simp [api_endpoint, hsec, hC],
             fun _ _ => by simp [api_endpoint, hsec, hC]⟩

/-- Witness for C1 at a concrete input: a duplicate submission racing against an
in-flight row (status RECEIVED, not COMPLETE) changes nothing, schedules
nothing, and is answered with the existing row's result. -/
theorem intake_idempotent_per_nonce_witness :
    (api_endpoint (some "s3cret") [rowReceived] 8 reqA).1 = [rowReceived]
    ∧ (api_endpoint (some "s3cret") [rowReceived] 8 reqA).2.1 = []
    ∧ (api_endpoint (some "s3cret") [rowReceived] 8 reqA).2.2
        = .ack "RECEIVED" "portfolio" "n-001" := by
  have h := intake_idempotent_per_nonce (some "s3cret") [rowReceived] 8 reqA rowReceived
    (List.pairwise_singleton _ _) (List.mem_singleton.mpr rfl) rfl
  exact ⟨h.1, h.2.1, h.2.2 rfl rfl⟩

/-- C10: any row the endpoint adds to the store has `brief = None` and
`evaluation_url = None` — the intake never persists the request's `brief` or
`evaluation_url`, whatever the request supplied. -/
theorem intake_never_persists_brief_or_callback (sec : Option String)
    (store : List TaskRec) (nid : Nat) (req : TaskRequest) (t : TaskRec)
    (hmem : t ∈ (api_endpoint sec store nid req).1) (hnew : t ∉ store) :
    t.brief = none ∧ t.evaluation_url = none := by
  by_cases hsec : some req.secret ≠ sec
  · simp [api_endpoint, hsec] at hmem
    exact absurd hmem hnew
  · rcases hC : store.find? (fun t =>
        t.nonce == req.nonce && t.round == req.round && t.status == "COMPLETE") with _ | tC
    · by_cases hany : store.any (fun t => t.nonce == req.nonce) = true
      · rcases hR : store.find? (fun t => t.nonce == req.nonce && t.round == req.round)
          with _ | tR
        · simp [api_endpoint, hsec, hC, hany, hR] at hmem
          exact absurd hmem hnew
        · simp [api_endpoint, hsec, hC, hany, hR] at hmem
          exact absurd hmem hnew
      · simp [api_endpoint, hsec, hC, hany] at hmem
        rcases hmem with hmem | hmem
        · exact absurd hmem hnew
        · subst hmem; exact ⟨rfl, rfl⟩
    · simp [api_endpoint, hsec, hC] at hmem
      exact absurd hmem hnew

/-- Witness for C10 at a concrete input: the fresh insert for a request that
supplies both a brief and an evaluation_url still stores neither. -/
theorem intake_never_persists_brief_or_callback_witness :
    (newTaskRow 1 reqA).brief = none ∧ (newTaskRow 1 reqA).evaluation_url = none :=
  intake_never_persists_brief_or_callback (some "s3cret") [] 1 reqA
    (newTaskRow 1 reqA) (by simp [api_endpoint, reqA]) (by simp)

/-! ## Claims about the pipeline executor -/

/-- C3 counterexample: `process_task` gates only on the Task existing, not on a
terminal status.  Run on a Task already at COMPLETE, the executor's first action
commits GENERATING_PROJECT over it — mutating the terminal Task and moving it
back to an earlier state (the run shown even ends by overwriting COMPLETE with
FAILED). -/
theorem pipeline_mutates_complete_task :
    rowComplete.status = "COMPLETE"
    ∧ (processTaskRun env0 rowComplete).2.head? = some "GENERATING_PROJECT"
    ∧ (processTaskRun env0 rowComplete).1.status = "FAILED" := by
  refine ⟨rfl, ?_, ?_⟩ <;> rfl

/-- C3 as amended: within a single run the status is monotone — COMPLETE and
FAILED are only ever the run's final status commit, so once a run reaches a
terminal state it performs no further mutation; and a missing Task row is left
untouched (`if not task: return`).  The executor does not, however, gate on a
terminal status across runs (see `pipeline_mutates_complete_task`). -/
theorem pipeline_terminal_only_last (env : Env) (t : TaskRec) :
    process_task env none = (none, [])
    ∧ terminalOnlyLastB (processTaskRun env t).2 = true := by
  refine ⟨rfl, ?_⟩
  unfold processTaskRun
  dsimp only
  repeat' split
  all_goals simp [failRun, terminalOnlyLastB]

/-- C4: an exception raised by any step aborts the run at once.  First conjunct:
every run either ends COMPLETE or ends FAILED with `error_message` set, never
having committed COMPLETE.  The remaining conjuncts instantiate each step that
can raise — project generation, repository creation, pages enablement, the
verifier's owner/repo unpacking, the notifier's fail-fast guard, and the
notifier's exhausted retries — showing the status commits stop at the raising
step (no later state is entered), the status becomes FAILED, and `str(e)` is
stored in `error_message`.  (`push_to_github` cannot raise: its `except` clause
returns `None`.) -/
theorem pipeline_step_exception_aborts (env : Env) (t : TaskRec) :
    ((processTaskRun env t).1.status = "COMPLETE"
      ∨ ((processTaskRun env t).1.status = "FAILED"
          ∧ (processTaskRun env t).1.error_message.isSome = true
          ∧ "COMPLETE" ∉ (processTaskRun env t).2))
    ∧ (∀ e, env.genProject = .error e →
        (processTaskRun env t).1.status = "FAILED"
        ∧ (processTaskRun env t).1.error_message = some e
        ∧ (processTaskRun env t).2 = ["GENERATING_PROJECT", "FAILED"])
    ∧ (∀ e tok, env.genProject = .ok () → env.token = some tok → tok ≠ "" →
        env.createRepo = .error e →
        (processTaskRun env t).1.status = "FAILED"
        ∧ (processTaskRun env t).1.error_message = some e
        ∧ (processTaskRun env t).2 = ["GENERATING_PROJECT", "CREATE_REPO", "FAILED"])
    ∧ (∀ e tok u, env.genProject = .ok () → env.token = some tok → tok ≠ "" →
        env.createRepo = .ok u → u ≠ "" → env.enablePages = .error e →
        (processTaskRun env t).1.status = "FAILED"
        ∧ (processTaskRun env t).1.error_message = some e
        ∧ (processTaskRun env t).2 =
            ["GENERATING_PROJECT", "CREATE_REPO", "PUSH_COMMIT", "ENABLE_PAGES", "FAILED"])
    ∧ (∀ tok u a b c rest, env.genProject = .ok () → env.token = some tok → tok ≠ "" →
        env.createRepo = .ok u → u ≠ "" → env.enablePages = .ok () →
        (pySplit (repoFullName u) "/" = [a]
          ∨ pySplit (repoFullName u) "/" = a :: b :: c :: rest) →
        (processTaskRun env t).1.status = "FAILED"
        ∧ (processTaskRun env t).1.error_message = some unpackErrMsg
        ∧ (processTaskRun env t).2 =
            ["GENERATING_PROJECT", "CREATE_REPO", "PUSH_COMMIT", "ENABLE_PAGES",
             "VERIFY_PAGES", "FAILED"])
    ∧ (∀ tok u owner repo sha, env.genProject = .ok () → env.token = some tok → tok ≠ "" →
        env.createRepo = .ok u → u ≠ "" → env.pushGit = some sha → sha ≠ "" →
        env.enablePages = .ok () → pySplit (repoFullName u) "/" = [owner, repo] →
        t.evaluation_url = none → t.error_message = none →
        (processTaskRun env t).1.status = "FAILED"
        ∧ (processTaskRun env t).1.error_message = some "No evaluation_url found for task."
        ∧ (processTaskRun env t).2 =
            ["GENERATING_PROJECT", "CREATE_REPO", "PUSH_COMMIT", "ENABLE_PAGES",
             "VERIFY_PAGES", "NOTIFY_EVALUATOR", "FAILED"])
    ∧ (∀ e tok u owner repo sha v, env.genProject = .ok () → env.token = some tok → tok ≠ "" →
        env.createRepo = .ok u → u ≠ "" → env.pushGit = some sha → sha ≠ "" →
        env.enablePages = .ok () → pySplit (repoFullName u) "/" = [owner, repo] →
        t.evaluation_url = some v → v ≠ "" → env.notifyPost = .error e →
        (processTaskRun env t).1.status = "FAILED"
        ∧ (processTaskRun env t).1.error_message = some ("Failed to notify evaluator: " ++ e)
        ∧ (processTaskRun env t).2 =
            ["GENERATING_PROJECT", "CREATE_REPO", "PUSH_COMMIT", "ENABLE_PAGES",
             "VERIFY_PAGES", "NOTIFY_EVALUATOR", "FAILED"]) := by
  refine ⟨?_, ?_, ?_, ?_, ?_, ?_, ?_⟩
  · unfold processTaskRun
    dsimp only
    repeat' split
    all_goals simp [failRun]
  · intro e hg
    unfold processTaskRun
    simp [hg, failRun]
  · intro e tok hg htok htok' hcr
    have htokb : (tok == "") = false := beq_eq_false_iff_ne.mpr htok'
    unfold processTaskRun
    simp [hg, htok, hcr, create_github_repo, Except.map, falsy, htokb, failRun]
  · intro e tok u hg htok htok' hcr hu hen
    have htokb : (tok == "") = false := beq_eq_false_iff_ne.mpr htok'
    have hub : (u == "") = false := beq_eq_false_iff_ne.mpr hu
    unfold processTaskRun
    simp [hg, htok, hcr, hen, create_github_repo, Except.map, push_to_github,
      enable_github_pages, falsy, htokb, hub, failRun, apply_ite TaskRec.repo_url]
  · intro tok u a b c rest hg htok htok' hcr hu hen hsp
    have htokb : (tok == "") = false := beq_eq_false_iff_ne.mpr htok'
    have hub : (u == "") = false := beq_eq_false_iff_ne.mpr hu
    rcases hsp with hsp | hsp
    · unfold processTaskRun
      simp [hg, htok, hcr, hen, hsp, create_github_repo, Except.map, push_to_github,
        enable_github_pages, verify_pages_deployment, falsy, htokb, hub, failRun,
        apply_ite TaskRec.repo_url]
    · unfold processTaskRun
      simp [hg, htok, hcr, hen, hsp, create_github_repo, Except.map, push_to_github,
        enable_github_pages, verify_pages_deployment, falsy, htokb, hub, failRun,
        apply_ite TaskRec.repo_url]
  · intro tok u owner repo sha hg htok htok' hcr hu hpush hsha hen hsp heval herr
    have htokb : (tok == "") = false := beq_eq_false_iff_ne.mpr htok'
    have hub : (u == "") = false := beq_eq_false_iff_ne.mpr hu
    have hshab : (sha == "") = false := beq_eq_false_iff_ne.mpr hsha
    have hpu : ((("https://" ++ owner) ++ ".github.io/" ++ repo ++ "/") == "") = false :=
      beq_eq_false_iff_ne.mpr (append_ne_empty_right _ "/" (by decide))
    unfold processTaskRun
    simp [hg, htok, hcr, hen, hsp, hpush, heval, herr, create_github_repo, Except.map,
      push_to_github, enable_github_pages, verify_pages_deployment, notify_evaluator,
      falsy, htokb, hub, hshab, hpu, failRun, verifyLoop_eq]
  · intro e tok u owner repo sha v hg htok htok' hcr hu hpush hsha hen hsp heval hv hpost
    have htokb : (tok == "") = false := beq_eq_false_iff_ne.mpr htok'
    have hub : (u == "") = false := beq_eq_false_iff_ne.mpr hu
    have hshab : (sha == "") = false := beq_eq_false_iff_ne.mpr hsha
    have hvb : (v == "") = false := beq_eq_false_iff_ne.mpr hv
    have hpu : ((("https://" ++ owner) ++ ".github.io/" ++ repo ++ "/") == "") = false :=
      beq_eq_false_iff_ne.mpr (append_ne_empty_right _ "/" (by decide))
    unfold processTaskRun
    simp [hg, htok, hcr, hen, hsp, hpush, heval, hpost, create_github_repo, Except.map,
      push_to_github, enable_github_pages, verify_pages_deployment, notify_evaluator,
      falsy, htokb, hub, hshab, hvb, hpu, failRun, verifyLoop_eq]

/-- Witness for C4 at a concrete input: a run whose project-generation step
raises `OSError("disk full")` ends FAILED with that message after committing
only GENERATING_PROJECT. -/
theorem pipeline_step_exception_aborts_witness :
    (processTaskRun envGenFail rowReceived).1.status = "FAILED"
    ∧ (processTaskRun envGenFail rowReceived).1.error_message = some "disk full"
    ∧ (processTaskRun envGenFail rowReceived).2 = ["GENERATING_PROJECT", "FAILED"] :=
  (pipeline_step_exception_aborts envGenFail rowReceived).2.1 "disk full" rfl

/-- C8: when the push step fails (every git subprocess path raises, so
`push_to_github` yields `None`), the run still ends at status FAILED with a
non-empty `error_message`, and `commit_sha` is never written: whatever happens
downstream (pages enablement raising, the verifier's unpacking raising, or the
notifier's fail-fast guard tripping on the missing `commit_sha`), the Task
finishes the run FAILED with `commit_sha` still unset. -/
theorem pipeline_push_failure (env : Env) (t : TaskRec) (tok u : String)
    (hsha0 : t.commit_sha = none)
    (hgen : env.genProject = .ok ())
    (htok : env.token = some tok) (htok' : tok ≠ "")
    (hcr : env.createRepo = .ok u) (hu : u ≠ "")
    (hpush : env.pushGit = none)
    (henable : ∀ e, env.enablePages = .error e → e ≠ "") :
    (processTaskRun env t).1.status = "FAILED"
    ∧ (processTaskRun env t).1.commit_sha = none
    ∧ ∃ m, (processTaskRun env t).1.error_message = some m ∧ m ≠ "" := by
  have htokb : (tok == "") = false := beq_eq_false_iff_ne.mpr htok'
  have hub : (u == "") = false := beq_eq_false_iff_ne.mpr hu
  unfold processTaskRun
  rcases hen : env.enablePages with e | _
  · simp [hgen, htok, hcr, hpush, hen, create_github_repo, Except.map, push_to_github,
      enable_github_pages, falsy, htokb, hub, failRun, hsha0]
    exact henable e hen
  · rcases hsp : pySplit (repoFullName u) "/" with _ | ⟨a, _ | ⟨b, _ | ⟨c, rest⟩⟩⟩
    · simp [hgen, htok, hcr, hpush, hen, hsp, create_github_repo, Except.map,
        push_to_github, enable_github_pages, verify_pages_deployment, falsy, htokb,
        hub, failRun, hsha0, unpackErrMsg]
    · simp [hgen, htok, hcr, hpush, hen, hsp, create_github_repo, Except.map,
        push_to_github, enable_github_pages, verify_pages_deployment, falsy, htokb,
        hub, failRun, hsha0, unpackErrMsg]
    · have hpu : ((("https://" ++ a) ++ ".github.io/" ++ b ++ "/") == "") = false :=
        beq_eq_false_iff_ne.mpr (append_ne_empty_right _ "/" (by decide))
      simp [hgen, htok, hcr, hpush, hen, hsp, create_github_repo, Except.map,
        push_to_github, enable_github_pages, verify_pages_deployment, notify_evaluator,
        falsy, htokb, hub, hpu, failRun, hsha0, verifyLoop_eq]
    · simp [hgen, htok, hcr, hpush, hen, hsp, create_github_repo, Except.map,
        push_to_github, enable_github_pages, verify_pages_deployment, falsy, htokb,
        hub, failRun, hsha0, unpackErrMsg]

/-- Witness for C8 at a concrete input (spec §8, Scenario D). -/
theorem pipeline_push_failure_witness :
    (processTaskRun envPushFail rowReceived).1.status = "FAILED"
    ∧ (processTaskRun envPushFail rowReceived).1.commit_sha = none
    ∧ ∃ m, (processTaskRun envPushFail rowReceived).1.error_message = some m ∧ m ≠ "" :=
  pipeline_push_failure envPushFail rowReceived "ghp_tok" "https://github.com/a/r.git"
    rfl rfl rfl (by decide) rfl (by decide) rfl
    (fun e h => Except.noConfusion h)

/-! ## Claims about the evaluator notifier -/

/-- C6 counterexample: a Task whose caller-supplied callback URL is missing
(`evaluation_url = None`) does not make `notify_evaluator` fail fast when
`error_message` holds text — the fallback hack posts to `error_message` as if
it were the callback URL. -/
theorem notify_posts_despite_missing_callback :
    rowNotifyNoCallback.evaluation_url = none
    ∧ notify_evaluator rowNotifyNoCallback (Except.ok ())
        = .posted "https://cb.example/hook"
            (build_evaluation_payload rowNotifyNoCallback) (Except.ok ()) :=
  ⟨rfl, rfl⟩

/-- C6 as amended: `notify_evaluator` raises before attempting any POST exactly
when `repo_url`, `commit_sha` or `pages_url` is missing (empty or unset), or
when both `evaluation_url` and the `error_message` fallback are missing; in
every case where a POST is attempted, its payload is exactly the fields
`email`, `task`, `round`, `nonce`, `repo_url`, `commit_sha`, `pages_url`
taken from the Task. -/
theorem notify_fail_fast_characterization (t : TaskRec) (post : Except String Unit) :
    ((∃ m, notify_evaluator t post = .failFast m) ↔
      (falsy t.pages_url || falsy t.repo_url || falsy t.commit_sha
        || (falsy t.evaluation_url && falsy t.error_message)) = true)
    ∧ (∀ url p outcome, notify_evaluator t post = .posted url p outcome →
        p = { email := t.email, task := t.task_name, round := t.round, nonce := t.nonce,
              repo_url := t.repo_url, commit_sha := t.commit_sha, pages_url := t.pages_url }
        ∧ outcome = post) := by
  rcases hp : t.pages_url with _ | p <;>
  rcases hr : t.repo_url with _ | r <;>
  rcases hc : t.commit_sha with _ | c <;>
  rcases he : t.evaluation_url with _ | v <;>
  rcases hm : t.error_message with _ | m <;>
  simp [notify_evaluator, build_evaluation_payload, falsy, hp, hr, hc, he, hm] <;>
  (try split_ifs) <;> (try simp_all) <;> (try split_ifs) <;> simp_all

/-- Witness for C6's amended claim at concrete inputs: a fresh row at the notify
step fails fast (its required fields are unset), and the POST attempted for
`rowNotifyNoCallback` carries exactly the Task's payload fields. -/
theorem notify_fail_fast_characterization_witness :
    (∃ m, notify_evaluator rowReceived (Except.ok ()) = .failFast m)
    ∧ (build_evaluation_payload rowNotifyNoCallback
        = { email := rowNotifyNoCallback.email, task := rowNotifyNoCallback.task_name,
            round := rowNotifyNoCallback.round, nonce := rowNotifyNoCallback.nonce,
            repo_url := rowNotifyNoCallback.repo_url,
            commit_sha := rowNotifyNoCallback.commit_sha,
            pages_url := rowNotifyNoCallback.pages_url }
        ∧ (Except.ok () : Except String Unit) = Except.ok ()) :=
  ⟨(notify_fail_fast_characterization rowReceived (Except.ok ())).1.mpr (by decide),
   (notify_fail_fast_characterization rowNotifyNoCallback (Except.ok ())).2
     "https://cb.example/hook" (build_evaluation_payload rowNotifyNoCallback)
     (Except.ok ()) rfl⟩

/-- C5: the backoff sequence `post_with_retry` actually produces.  tenacity's
`wait_exponential(multiplier=2, min=2, max=16)` sleeps
`clamp(2 * 2^n, 2, 16)` after failed attempt `n`: 4 s, 8 s, 16 s, 16 s, … —
the first delay is 4 s, not the 2 s the source's own comment
(`# Retry with exponential backoff: 2s, 4s, 8s, 16s`) announces; and at 4 s
elapsed (start of attempt 2) the 600 s `stop_after_delay` deadline — measured
from the first POST of this call, not from pipeline start — is far from
reached. -/
theorem post_retry_actual_backoff :
    postRetryWait 1 = 4 ∧ postRetryWait 2 = 8 ∧ postRetryWait 3 = 16
    ∧ postRetryWait 4 = 16 ∧ postRetryWait 5 = 16
    ∧ postRetryWait 1 ≠ 2
    ∧ postRetryStart 2 = 4 ∧ postRetryStart 3 = 12 ∧ postRetryStart 4 = 28
    ∧ stop_after_delay 600 (postRetryStart 2) = false := by
  decide

/-! ## Claims about the deployment verifier -/

theorem verifyPollCount_le (poll : Nat → Bool) (k fuel : Nat) :
    verifyPollCount poll k fuel ≤ fuel := by
  induction fuel generalizing k with
  | zero => simp [verifyPollCount]
  | succ f ih =>
    cases hpk : poll k
    · have := ih (k + 1)
      simp [verifyPollCount, hpk]
      omega
    · simp [verifyPollCount, hpk]

theorem verifyPollCount_first (poll : Nat → Bool) (fuel k i : Nat)
    (hif : i < fuel) (hi : poll (k + i) = true)
    (hj : ∀ j, j < i → poll (k + j) = false) :
    verifyPollCount poll k fuel = i + 1 := by
  induction fuel generalizing k i with
  | zero => omega
  | succ f ih =>
    rcases i with _ | i
    · simp [verifyPollCount, show poll k = true from by simpa using hi]
    · have h0 : poll k = false := by simpa using hj 0 (Nat.succ_pos _)
      have hrec : verifyPollCount poll (k + 1) f = i + 1 := by
        refine ih (k + 1) i (by omega) ?_ ?_
        · rw [show k + 1 + i = k + (i + 1) from by omega]
          exact hi
        · intro j hji
          rw [show k + 1 + j = k + (j + 1) from by omega]
          exact hj (j + 1) (by omega)
      simp [verifyPollCount, h0, hrec]
      omega

theorem verifyPollCount_none (poll : Nat → Bool) (fuel k : Nat)
    (h : ∀ i, i < fuel → poll (k + i) = false) :
    verifyPollCount poll k fuel = fuel := by
  induction fuel generalizing k with
  | zero => rfl
  | succ f ih =>
    have h0 : poll k = false := by simpa using h 0 (Nat.succ_pos _)
    have hrec : verifyPollCount poll (k + 1) f = f := by
      refine ih (k + 1) ?_
      intro i hi
      rw [show k + 1 + i = k + (i + 1) from by omega]
      exact h (i + 1) (by omega)
    simp [verifyPollCount, h0, hrec]
    omega

/-- C7: the verifier computes `https://{owner}.github.io/{repo}/` from the
repository's owner and name; its return value is that URL regardless of the
poll outcomes (success and deadline expiry are indistinguishable to the
caller); it performs at most `300 / 10 = 30` GETs; it stops polling at the
first 200 (after `k + 1` GETs when poll `k` is the first success); and when no
poll succeeds it performs the full 30 GETs before returning the same URL. -/
theorem verifier_fixed_polling (t : TaskRec) (poll : Nat → Bool) (u owner repo : String)
    (hru : t.repo_url = some u) (hu : u ≠ "")
    (hsp : pySplit (repoFullName u) "/" = [owner, repo]) :
    verify_pages_deployment t poll
      = .ok (some ("https://" ++ owner ++ ".github.io/" ++ repo ++ "/"))
    ∧ (∀ poll', verify_pages_deployment t poll = verify_pages_deployment t poll')
    ∧ VERIFY_TIMEOUT / VERIFY_INTERVAL = 30
    ∧ verifyPollCount poll 0 (VERIFY_TIMEOUT / VERIFY_INTERVAL) ≤ 30
    ∧ (∀ k, k < 30 → poll k = true → (∀ j, j < k → poll j = false) →
        verifyPollCount poll 0 (VERIFY_TIMEOUT / VERIFY_INTERVAL) = k + 1)
    ∧ ((∀ k, k < 30 → poll k = false) →
        verifyPollCount poll 0 (VERIFY_TIMEOUT / VERIFY_INTERVAL) = 30) := by
  have hub : (u == "") = false := beq_eq_false_iff_ne.mpr hu
  have h30 : VERIFY_TIMEOUT / VERIFY_INTERVAL = 30 := by decide
  refine ⟨?_, ?_, h30, ?_, ?_, ?_⟩
  · simp [verify_pages_deployment, hru, hub, hsp, verifyLoop_eq]
  · intro poll'
    simp [verify_pages_deployment, hru, hub, hsp, verifyLoop_eq]
  · rw [h30]
    exact verifyPollCount_le poll 0 30
  · intro k hk hpk hj
    rw [h30]
    exact verifyPollCount_first poll 30 0 k hk (by simpa using hpk)
      (fun j hji => by simpa using hj j hji)
  · intro h
    rw [h30]
    exact verifyPollCount_none poll 30 0 (fun i hi => by simpa using h i hi)

/-- Witness for C7 at a concrete input: with the third poll the first to see a
200, the verifier returns the computed URL after exactly 3 GETs. -/
theorem verifier_fixed_polling_witness :
    verify_pages_deployment rowVerify pollW = .ok (some "https://alice.github.io/site/")
    ∧ verifyPollCount pollW 0 (VERIFY_TIMEOUT / VERIFY_INTERVAL) = 3 := by
  have h := verifier_fixed_polling rowVerify pollW "https://github.com/alice/site.git"
    "alice" "site" rfl (by decide) (by decide)
  have e1 : ("https://" ++ "alice" ++ ".github.io/" ++ "site" ++ "/")
      = "https://alice.github.io/site/" := by decide
  refine ⟨?_, h.2.2.2.2.1 2 (by decide) (by decide) (by decide)⟩
  rw [e1] at h
  exact h.1

end StudentApi
